import Mathlib

/-!
Shallow embedding of the `eta` terminal mail client's mode/state controller
(`src/app.rs`) and the data model it manipulates (`src/message.rs`).

Modelling conventions:
* Rust `u64` / `usize` become `Nat` (the arithmetic in the controller is
  `+ 1`, `- 1` with `saturating_sub`, so no wrap-around is observable).
* `TableState` is modelled by its `selected` component (`Option Nat`); its
  viewport offset, `ScrollbarState`, widget scroll offsets and cursor
  positions are view-only state of the external `ratatui`/`tui_textarea`
  widgets and carry no controller-visible information, so they are omitted.
* A `tui_textarea::TextArea` is modelled by its list of lines.  The crate
  guarantees at least one (possibly empty) line; `lines()[0]` is modelled by
  `headD ""`.  The text-editing primitive `input_without_shortcuts` belongs
  to the external crate and is passed as an arbitrary function parameter
  `ti : KeyEvent → TextArea → TextArea`.
* Side effects are made explicit: `events.send(e)` is recorded in a list of
  sent `AppEvent`s, and calls into the `MessageProvider` (`get_messages`,
  `get_message`, `send_message`) are recorded in a list of `StoreRequest`s.
-/

/-- `Message` from `src/message.rs` (the `from` and `to` fields are written
`from_` and `to_` because both are reserved tokens in Lean). -/
structure Message where
  id : Nat
  from_ : String
  to_ : String
  subject : String
  body : String
deriving DecidableEq, Repr

/-- `Message::default()`: `u64` defaults to 0, `String` to the empty string. -/
def Message.default : Message :=
  { id := 0, from_ := "", to_ := "", subject := "", body := "" }

/-- A `tui_textarea::TextArea`, reduced to its content lines. -/
structure TextArea where
  lines : List String
deriving DecidableEq, Repr

/-- `TextArea::default()` holds a single empty line. -/
def TextArea.default : TextArea := ⟨[""]⟩

/-- `textarea.lines()[0]` — the crate guarantees at least one line. -/
def TextArea.firstLine (ta : TextArea) : String := ta.lines.headD ""

/-- `textarea.lines().join("\n")`. -/
def TextArea.joined (ta : TextArea) : String := String.intercalate "\n" ta.lines

/-- `textarea.insert_str(s)` with the cursor at the end of the buffer (the
controller only calls it on a freshly reset textarea). -/
def TextArea.insert_str (ta : TextArea) (s : String) : TextArea :=
  ⟨(ta.joined ++ s).splitOn "\n"⟩

/-- The subset of `crossterm` key codes the controller dispatches on; `Other`
stands for every remaining code. -/
inductive KeyCode where
  | Enter
  | Esc
  | Tab
  | Up
  | Down
  | Left
  | Right
  | PageUp
  | PageDown
  | Char (c : Char)
  | Other
deriving DecidableEq, Repr

/-- `crossterm` key modifiers as a set of flags; `key_event.modifiers ==
KeyModifiers::CONTROL` is equality with the control-only set. -/
structure KeyModifiers where
  shift : Bool
  control : Bool
  alt : Bool
deriving DecidableEq, Repr

def KeyModifiers.NONE : KeyModifiers := ⟨false, false, false⟩

def KeyModifiers.CONTROL : KeyModifiers := ⟨false, true, false⟩

structure KeyEvent where
  modifiers : KeyModifiers
  code : KeyCode
deriving DecidableEq, Repr

/-- `MessageSentStatus` from `src/app.rs`. -/
inductive MessageSentStatus where
  | Success
  | Failed (reason : String)
deriving DecidableEq, Repr

/-- `MessageTableMode` from `src/app.rs`. -/
inductive MessageTableMode where
  | Normal
  | MessageSent (s : MessageSentStatus)
deriving DecidableEq, Repr

/-- `ComposeMode` from `src/app.rs`. -/
inductive ComposeMode where
  | Normal
  | Editing
deriving DecidableEq, Repr

/-- `ComposeFocus` from `src/app.rs`. -/
inductive ComposeFocus where
  | To (m : ComposeMode)
  | Subject (m : ComposeMode)
  | Message (m : ComposeMode)
deriving DecidableEq, Repr

/-- `Mode` from `src/app.rs`. -/
inductive Mode where
  | LoadingMessages
  | MessageTable (m : MessageTableMode)
  | Message (i : Nat)
  | Compose (f : ComposeFocus)
deriving DecidableEq, Repr

/-- `AppEvent` (declared in the crate's event module; the variants and their
payloads are exactly those matched in `App::run`). -/
inductive AppEvent where
  | MessagesLoaded (messages : List Message)
  | MessageBodyLoaded (id : Nat) (body : String)
  | MessageSent (status : Option String)
  | SendMessage
  | Quit
  | Error (e : String)
deriving DecidableEq, Repr

/-- A call placed on the `MessageProvider` (`get_messages`, `get_message`,
`send_message`); the provider answers later via an `AppEvent`. -/
inductive StoreRequest where
  | get_messages
  | get_message (id : Nat)
  | send_message (m : Message)
deriving DecidableEq, Repr

/-- The controller state of `App` from `src/app.rs`.  `events` (the channel
handle) and `messages` (the provider handle) are replaced by the explicit
effect lists of the operations; `message_scroll_state` is view-only. -/
structure App where
  running : Bool
  needs_render : Bool
  mode : Mode
  /-- `message_table_state.selected()`. -/
  message_table_state : Option Nat
  compose_message_input : TextArea
  compose_to_input : TextArea
  compose_subject_input : TextArea
  message_textarea : TextArea
  current_message : Message
  loaded_messages : List Message
deriving DecidableEq, Repr

/-- `App::default()`: note `TableState::default().with_selected(0)` selects
row 0 even though `loaded_messages` starts empty. -/
def App.default : App :=
  { running := true
    needs_render := true
    mode := Mode.MessageTable MessageTableMode.Normal
    message_table_state := some 0
    compose_message_input := TextArea.default
    compose_to_input := TextArea.default
    compose_subject_input := TextArea.default
    message_textarea := TextArea.default
    current_message := Message.default
    loaded_messages := [] }

/-- `App::quit`. -/
def App.quit (app : App) : App := { app with running := false }

/-- `App::send_message`: build a `Message` from the compose buffers (first
line of To/Subject, joined lines of Body), hand it to the provider, reset the
three compose buffers, and return to the message table. -/
def App.send_message (app : App) : App × List StoreRequest :=
  let message : Message :=
    { Message.default with
      to_ := app.compose_to_input.firstLine
      subject := app.compose_subject_input.firstLine
      body := app.compose_message_input.joined }
  ({ app with
      compose_to_input := TextArea.default
      compose_subject_input := TextArea.default
      compose_message_input := TextArea.default
      mode := Mode.MessageTable MessageTableMode.Normal },
   [StoreRequest.send_message message])

/-- `App::view_message`: with a selected row `id`, reset the detail textarea,
ask the provider for the body of message `id + 1` (the row index cast to a
1-based id), and enter `Message(id)`. -/
def App.view_message (app : App) : App × List StoreRequest :=
  match app.message_table_state with
  | some id =>
      ({ app with
          message_textarea := TextArea.default
          mode := Mode.Message id
          needs_render := true },
       [StoreRequest.get_message (id + 1)])
  | none => (app, [])

/-- `App::next_message` (`len().saturating_sub(1)` is `Nat` subtraction). -/
def App.next_message (app : App) : App :=
  let i : Nat :=
    match app.message_table_state with
    | some i => if i ≥ app.loaded_messages.length - 1 then 0 else i + 1
    | none => 0
  { app with
      message_table_state := some i
      mode := Mode.MessageTable MessageTableMode.Normal
      needs_render := true }

/-- `App::previous_message` (it does not set `needs_render`). -/
def App.previous_message (app : App) : App :=
  let i : Nat :=
    match app.message_table_state with
    | some i => if i = 0 then app.loaded_messages.length - 1 else i - 1
    | none => 0
  { app with
      message_table_state := some i
      mode := Mode.MessageTable MessageTableMode.Normal }

/-- `App::compose_message`. -/
def App.compose_message (app : App) : App :=
  { app with mode := Mode.Compose (ComposeFocus.To ComposeMode.Normal) }

/-- `App::set_loaded_messages`: replace the cache; select row 0 when the new
list is non-empty and nothing was selected yet. -/
def App.set_loaded_messages (app : App) (messages : List Message) : App :=
  let app1 := { app with loaded_messages := messages }
  if app1.loaded_messages.length > 0 ∧ app1.message_table_state = none then
    { app1 with message_table_state := some 0 }
  else
    app1

/-- `App::set_current_message`: when `id` differs from the cached current
message, look `id` up in `loaded_messages` (first match) and cache that entry
with the fetched body; then, if a row is selected, enter `Message(rowIndex)`;
finally render the From/To/Subject header plus body into the detail textarea. -/
def App.set_current_message (app : App) (id : Nat) (body : String) : App :=
  let current : Message :=
    if id ≠ app.current_message.id then
      match app.loaded_messages.find? (fun m => id == m.id) with
      | some m => { m with body := body }
      | none => app.current_message
    else
      app.current_message
  let app1 := { app with current_message := current }
  let app2 :=
    match app1.message_table_state with
    | some table_id => { app1 with mode := Mode.Message table_id, needs_render := true }
    | none => app1
  { app2 with
      message_textarea := app2.message_textarea.insert_str
        ("From: " ++ app2.current_message.from_ ++
         "\nTo: " ++ app2.current_message.to_ ++
         "\nSubject: " ++ app2.current_message.subject ++
         "\n\n" ++ app2.current_message.body) }

/-- `App::set_message_sent_status`: build the `MessageSent` table sub-state
from the optional error string, but install it only when still in
`MessageTable` mode. -/
def App.set_message_sent_status (app : App) (status : Option String) : App :=
  let sent_status : MessageSentStatus :=
    match status with
    | some str => MessageSentStatus.Failed str
    | none => MessageSentStatus.Success
  let app_mode := Mode.MessageTable (MessageTableMode.MessageSent sent_status)
  match app.mode with
  | Mode.MessageTable _ => { app with mode := app_mode }
  | _ => app

/-- Result of `App::handle_key_events`: the new state, the `AppEvent`s sent
on the channel, and the provider calls placed. -/
structure KeyOutcome where
  app : App
  sent : List AppEvent
  requests : List StoreRequest
deriving DecidableEq, Repr

/-- `App::handle_key_events` from `src/app.rs`.  `ti` is the external
`input_without_shortcuts` text-editing primitive.  Branches that only adjust
widget scroll offsets or cursor positions leave the modelled state unchanged. -/
def App.handle_key_events (ti : KeyEvent → TextArea → TextArea)
    (app : App) (k : KeyEvent) : KeyOutcome :=
  if k.modifiers = KeyModifiers.CONTROL ∧ k.code = KeyCode.Char 'c' then
    ⟨app, [AppEvent.Quit], []⟩
  else
    let app := { app with needs_render := true }
    match app.mode with
    | Mode.LoadingMessages => ⟨app, [], []⟩
    | Mode.MessageTable _ =>
      match k.code with
      | KeyCode.Enter =>
          let r := app.view_message
          ⟨r.1, [], r.2⟩
      | KeyCode.Char 'c' => ⟨app.compose_message, [], []⟩
      | KeyCode.Char 'j' | KeyCode.Down => ⟨app.next_message, [], []⟩
      | KeyCode.Char 'k' | KeyCode.Up => ⟨app.previous_message, [], []⟩
      | KeyCode.Char 'q' => ⟨app, [AppEvent.Quit], []⟩
      | _ => ⟨app, [], []⟩
    | Mode.Message _ =>
      match k.code with
      | KeyCode.Esc | KeyCode.Char 'q' =>
          ⟨{ app with mode := Mode.MessageTable MessageTableMode.Normal }, [], []⟩
      | _ => ⟨app, [], []⟩
    | Mode.Compose focus =>
      match focus with
      | ComposeFocus.To compose_mode =>
        match compose_mode with
        | ComposeMode.Normal =>
          match k.code with
          | KeyCode.Esc | KeyCode.Char 'q' =>
              ⟨{ app with mode := Mode.MessageTable MessageTableMode.Normal }, [], []⟩
          | KeyCode.Enter =>
              ⟨{ app with mode := Mode.Compose (ComposeFocus.To ComposeMode.Editing) }, [], []⟩
          | KeyCode.Tab =>
              ⟨{ app with mode := Mode.Compose (ComposeFocus.Subject ComposeMode.Normal) }, [], []⟩
          | _ => ⟨app, [], []⟩
        | ComposeMode.Editing =>
          match k.code with
          | KeyCode.Esc =>
              ⟨{ app with mode := Mode.Compose (ComposeFocus.To ComposeMode.Normal) }, [], []⟩
          | KeyCode.Enter | KeyCode.Tab =>
              ⟨{ app with mode := Mode.Compose (ComposeFocus.Subject ComposeMode.Normal) }, [], []⟩
          | _ => ⟨{ app with compose_to_input := ti k app.compose_to_input }, [], []⟩
      | ComposeFocus.Subject compose_mode =>
        match compose_mode with
        | ComposeMode.Normal =>
          match k.code with
          | KeyCode.Esc | KeyCode.Char 'q' =>
              ⟨{ app with mode := Mode.MessageTable MessageTableMode.Normal }, [], []⟩
          | KeyCode.Enter =>
              ⟨{ app with mode := Mode.Compose (ComposeFocus.Subject ComposeMode.Editing) }, [], []⟩
          | KeyCode.Tab =>
              ⟨{ app with mode := Mode.Compose (ComposeFocus.Message ComposeMode.Normal) }, [], []⟩
          | _ => ⟨app, [], []⟩
        | ComposeMode.Editing =>
          match k.code with
          | KeyCode.Esc =>
              ⟨{ app with mode := Mode.Compose (ComposeFocus.Subject ComposeMode.Normal) }, [], []⟩
          | KeyCode.Enter | KeyCode.Tab =>
              ⟨{ app with mode := Mode.Compose (ComposeFocus.Message ComposeMode.Normal) }, [], []⟩
          | _ => ⟨{ app with compose_subject_input := ti k app.compose_subject_input }, [], []⟩
      | ComposeFocus.Message compose_mode =>
        match compose_mode with
        | ComposeMode.Normal =>
          match k.code with
          | KeyCode.Esc | KeyCode.Char 'q' =>
              ⟨{ app with mode := Mode.MessageTable MessageTableMode.Normal }, [], []⟩
          | KeyCode.Char 'S' => ⟨app, [AppEvent.SendMessage], []⟩
          | KeyCode.Enter =>
              ⟨{ app with mode := Mode.Compose (ComposeFocus.Message ComposeMode.Editing) }, [], []⟩
          | KeyCode.Tab =>
              ⟨{ app with mode := Mode.Compose (ComposeFocus.To ComposeMode.Normal) }, [], []⟩
          | KeyCode.Up | KeyCode.Down => ⟨app, [], []⟩
          | _ => ⟨app, [], []⟩
        | ComposeMode.Editing =>
          match k.code with
          | KeyCode.Esc =>
              ⟨{ app with mode := Mode.Compose (ComposeFocus.Message ComposeMode.Normal) }, [], []⟩
          | KeyCode.Up | KeyCode.Down => ⟨app, [], []⟩
          | _ => ⟨{ app with compose_message_input := ti k app.compose_message_input }, [], []⟩

/-- The `Event::App` arm of the run loop in `App::run`: set `needs_render`
and dispatch the application event.  `Error(e)` propagates an error out of
the loop (`show_error` returns `Err`), leaving the controller state as is. -/
def App.handle_app_event (app : App) (e : AppEvent) : App × List StoreRequest :=
  let app := { app with needs_render := true }
  match e with
  | AppEvent.MessagesLoaded messages => (app.set_loaded_messages messages, [])
  | AppEvent.MessageBodyLoaded id body => (app.set_current_message id body, [])
  | AppEvent.MessageSent status => (app.set_message_sent_status status, [])
  | AppEvent.SendMessage => app.send_message
  | AppEvent.Quit => (app.quit, [])
  | AppEvent.Error _ => (app, [])

/-- One item drawn from the event channel in `App::run`. -/
inductive Input where
  | key (k : KeyEvent)
  | app (e : AppEvent)
  | tick
deriving DecidableEq, Repr

/-- One iteration of the run loop on one input (`tick` is a no-op hook). -/
def App.step (ti : KeyEvent → TextArea → TextArea) (a : App) : Input → App
  | Input.key k => (a.handle_key_events ti k).app
  | Input.app e => (a.handle_app_event e).1
  | Input.tick => a

/-- Controller states reachable from `App::default()` by any sequence of
events, for a fixed external text-editing primitive `ti`. -/
inductive Reachable (ti : KeyEvent → TextArea → TextArea) : App → Prop where
  | init : Reachable ti App.default
  | step (a : App) (i : Input) : Reachable ti a → Reachable ti (a.step ti i)

/-!  Concrete values used by witnesses and counterexamples. -/

/-- A trivial instance of the external text-editing primitive, used to
instantiate universally quantified theorems at a concrete input. -/
def tiId : KeyEvent → TextArea → TextArea := fun _ ta => ta

/-- A sample stored message whose id (5) is not its row index plus one. -/
def msg5 : Message := { id := 5, from_ := "a@x", to_ := "b@x", subject := "s", body := "" }

/-- The default controller state with one loaded message. -/
def appW1 : App := { App.default with loaded_messages := [msg5] }

/-- The default controller state with the selection cleared. -/
def appW2 : App := { App.default with message_table_state := none }

/-- An empty message list with a stale selection index. -/
def appW3 : App := { App.default with message_table_state := some 2 }

/-- A plain Enter key press. -/
def keyEnter : KeyEvent := { modifiers := KeyModifiers.NONE, code := KeyCode.Enter }

/-- The Ctrl-C interrupt combination. -/
def keyCtrlC : KeyEvent := { modifiers := KeyModifiers.CONTROL, code := KeyCode.Char 'c' }

/-- A message with the 1-based id matching row 0. -/
def msgId1 : Message := { id := 1, from_ := "x@x", to_ := "y@y", subject := "a", body := "" }

/-- A message with the 1-based id matching row 1. -/
def msgId2 : Message := { id := 2, from_ := "x@x", to_ := "y@y", subject := "b", body := "" }

/-- The default controller state with two loaded messages whose ids are the
1-based sequence, as the seeded store produces them. -/
def appSeq : App := { App.default with loaded_messages := [msgId1, msgId2] }

/-!  Helper lemmas: the effect of each operation on the table selection. -/

theorem view_message_sel (app : App) :
    (app.view_message).1.message_table_state = app.message_table_state := by
  unfold App.view_message
  cases h : app.message_table_state <;> simp [h]

theorem next_message_sel (app : App) :
    ((app.next_message).message_table_state).isSome = true := by
  unfold App.next_message
  simp

theorem previous_message_sel (app : App) :
    ((app.previous_message).message_table_state).isSome = true := by
  unfold App.previous_message
  simp

theorem set_loaded_messages_sel (app : App) (messages : List Message)
    (h : app.message_table_state.isSome = true) :
    ((app.set_loaded_messages messages).message_table_state).isSome = true := by
  simp only [App.set_loaded_messages]
  split <;> simp_all

theorem set_current_message_sel (app : App) (id : Nat) (body : String) :
    (app.set_current_message id body).message_table_state = app.message_table_state := by
  unfold App.set_current_message
  cases h : app.message_table_state <;> simp [h]

theorem set_message_sent_status_sel (app : App) (status : Option String) :
    (app.set_message_sent_status status).message_table_state = app.message_table_state := by
  unfold App.set_message_sent_status
  cases h : app.mode <;> simp

theorem handle_key_sel (ti : KeyEvent → TextArea → TextArea) (app : App) (k : KeyEvent)
    (h : app.message_table_state.isSome = true) :
    ((app.handle_key_events ti k).app.message_table_state).isSome = true := by
  unfold App.handle_key_events
  split
  · simp [h]
  · dsimp only
    cases hm : app.mode with
    | LoadingMessages => simp [h]
    | MessageTable tm =>
      dsimp only
      split <;>
        simp [view_message_sel, next_message_sel, previous_message_sel,
          App.compose_message, h]
    | Message i =>
      dsimp only
      split <;> simp [h]
    | Compose focus =>
      cases focus with
      | To cm => cases cm <;> (dsimp only; split <;> simp [h])
      | Subject cm => cases cm <;> (dsimp only; split <;> simp [h])
      | Message cm => cases cm <;> (dsimp only; split <;> simp [h])

theorem handle_app_sel (app : App) (e : AppEvent)
    (h : app.message_table_state.isSome = true) :
    ((app.handle_app_event e).1.message_table_state).isSome = true := by
  cases e <;>
    simp [App.handle_app_event, App.send_message, App.quit,
      set_current_message_sel, set_message_sent_status_sel, h]
  exact set_loaded_messages_sel _ _ (by simp [h])

/-!  Claim theorems. -/

/-- C4: a `MessageSent(outcome)` event in `MessageTable` mode installs
`MessageTable(MessageSent(s))` with `s = Success` exactly when no error
string is supplied and `s = Failed(reason)` when one is; in any other mode
the event leaves the whole controller state unchanged. -/
theorem c4_message_sent_status (app : App) (status : Option String) :
    (∀ tm : MessageTableMode, app.mode = Mode.MessageTable tm →
      (app.set_message_sent_status status).mode =
        Mode.MessageTable (MessageTableMode.MessageSent
          (match status with
           | some reason => MessageSentStatus.Failed reason
           | none => MessageSentStatus.Success)))
    ∧ ((∀ tm : MessageTableMode, app.mode ≠ Mode.MessageTable tm) →
      app.set_message_sent_status status = app) := by
  constructor
  · intro tm htm
    simp only [App.set_message_sent_status, htm]
  · intro h
    unfold App.set_message_sent_status
    cases happ : app.mode with
    | MessageTable tm => exact absurd happ (h tm)
    | LoadingMessages => simp [happ]
    | Message i => simp [happ]
    | Compose f => simp [happ]

/-- C4 witness: with the default state (MessageTable mode) a failed send
installs the failure banner; in `Message 0` mode the event changes nothing. -/
theorem c4_message_sent_status_witness :
    (App.default.set_message_sent_status (some "boom")).mode =
      Mode.MessageTable (MessageTableMode.MessageSent (MessageSentStatus.Failed "boom"))
    ∧ ({ App.default with mode := Mode.Message 0 }).set_message_sent_status none =
      { App.default with mode := Mode.Message 0 } := by
  constructor
  · exact (c4_message_sent_status App.default (some "boom")).1
      MessageTableMode.Normal rfl
  · exact (c4_message_sent_status { App.default with mode := Mode.Message 0 } none).2
      (by intro tm h; cases h)

/-- C5: handling `SendMessage` passes the store a message whose to and
subject are the first lines of the respective compose buffers and whose body
is the full joined content of the body buffer, then leaves all three compose
buffers at their empty default and the mode at `MessageTable(Normal)` — all
within the synchronous handler, hence before any `MessageSent` arrives. -/
theorem c5_send_message_builds_and_resets (app : App) :
    (app.handle_app_event AppEvent.SendMessage).2 =
      [StoreRequest.send_message
        { Message.default with
          to_ := app.compose_to_input.firstLine
          subject := app.compose_subject_input.firstLine
          body := app.compose_message_input.joined }]
    ∧ (app.handle_app_event AppEvent.SendMessage).1.compose_to_input = TextArea.default
    ∧ (app.handle_app_event AppEvent.SendMessage).1.compose_subject_input = TextArea.default
    ∧ (app.handle_app_event AppEvent.SendMessage).1.compose_message_input = TextArea.default
    ∧ (app.handle_app_event AppEvent.SendMessage).1.mode =
        Mode.MessageTable MessageTableMode.Normal := by
  refine ⟨?_, ?_, ?_, ?_, ?_⟩ <;>
    simp [App.handle_app_event, App.send_message]

/-- C10: every invocation of the next-selection or previous-selection
operation resets the mode to `MessageTable(Normal)`, dismissing any
`MessageSent` status banner. -/
theorem c10_navigation_clears_status (app : App) :
    (app.next_message).mode = Mode.MessageTable MessageTableMode.Normal
    ∧ (app.previous_message).mode = Mode.MessageTable MessageTableMode.Normal := by
  constructor <;> simp [App.next_message, App.previous_message]

/-- C6: for every mode and every key event with modifiers exactly Control
and code `'c'`, `handle_key_events` sends `Quit` and returns the state
untouched (no mode dispatch, not even the render flag); handling the
resulting `Quit` event clears the running flag. -/
theorem c6_ctrl_c_quits (ti : KeyEvent → TextArea → TextArea) (app : App) (k : KeyEvent)
    (hm : k.modifiers = KeyModifiers.CONTROL) (hc : k.code = KeyCode.Char 'c') :
    app.handle_key_events ti k = ⟨app, [AppEvent.Quit], []⟩
    ∧ ∀ a : App, (a.handle_app_event AppEvent.Quit).1.running = false := by
  constructor
  · simp only [App.handle_key_events, hm, hc, and_self, if_pos]
  · intro a
    simp [App.handle_app_event, App.quit]

/-- C6 witness: Ctrl-C in the initial state. -/
theorem c6_ctrl_c_quits_witness :
    App.default.handle_key_events tiId keyCtrlC = ⟨App.default, [AppEvent.Quit], []⟩
    ∧ (App.default.handle_app_event AppEvent.Quit).1.running = false := by
  have h := c6_ctrl_c_quits tiId App.default keyCtrlC rfl rfl
  exact ⟨h.1, h.2 App.default⟩

/-- C1: for every `MessageBodyLoaded(id, body)` event: when `id` differs from
the cached current message's id and `id` is found in `loaded_messages`, the
current-message cache becomes that entry with the fetched body attached; when
`id` matches no loaded message, `current_message` is unchanged; in every
case, a selected table row makes the mode `Message(rowIndex)` and an absent
selection leaves the mode unchanged. -/
theorem c1_message_body_loaded (app : App) (id : Nat) (body : String) :
    (∀ m : Message, id ≠ app.current_message.id →
      app.loaded_messages.find? (fun x => id == x.id) = some m →
      (app.set_current_message id body).current_message = { m with body := body })
    ∧ ((∀ m ∈ app.loaded_messages, id ≠ m.id) →
      (app.set_current_message id body).current_message = app.current_message)
    ∧ (∀ r : Nat, app.message_table_state = some r →
      (app.set_current_message id body).mode = Mode.Message r)
    ∧ (app.message_table_state = none →
      (app.set_current_message id body).mode = app.mode) := by
  refine ⟨?_, ?_, ?_, ?_⟩
  · intro m hne hfind
    unfold App.set_current_message
    simp only [hne, hfind, ne_eq, not_false_iff, if_true, if_pos]
    cases h2 : app.message_table_state <;> simp
  · intro h
    have hfind : app.loaded_messages.find? (fun x => id == x.id) = none := by
      apply List.find?_eq_none.mpr
      intro x hx
      simpa using h x hx
    unfold App.set_current_message
    by_cases hne : id = app.current_message.id
    · simp only [hne, ne_eq, not_true_eq_false, if_false, ite_self]
      cases h2 : app.message_table_state <;> simp
    · simp only [hfind, ne_eq, hne, not_false_iff, if_true]
      cases h2 : app.message_table_state <;> simp
  · intro r hr
    unfold App.set_current_message
    simp only [hr]
  · intro hr
    unfold App.set_current_message
    simp only [hr]

/-- C1 witness: a body arriving for the loaded message with id 5 (≠ cached
id 0) replaces the cache and, with row 0 selected, enters `Message 0`; with
no selection and no matching message, cache and mode stay put. -/
theorem c1_message_body_loaded_witness :
    (appW1.set_current_message 5 "B").current_message = { msg5 with body := "B" }
    ∧ (appW1.set_current_message 5 "B").mode = Mode.Message 0
    ∧ (appW2.set_current_message 9 "B").current_message = appW2.current_message
    ∧ (appW2.set_current_message 9 "B").mode = appW2.mode := by
  refine ⟨?_, ?_, ?_, ?_⟩
  · exact (c1_message_body_loaded appW1 5 "B").1 msg5 (by decide) (by decide)
  · exact (c1_message_body_loaded appW1 5 "B").2.2.1 0 rfl
  · exact (c1_message_body_loaded appW2 9 "B").2.1
      (by intro m hm; simp [appW2, App.default] at hm)
  · exact (c1_message_body_loaded appW2 9 "B").2.2.2 rfl

/-- C2 counterexample: in `MessageTable(Normal)` with row 0 selected,
handling Enter moves the mode to `Message 0` within the key handler itself —
it does not stay in `MessageTable` until the body arrives. -/
theorem c2_enter_immediate_counterexample :
    appW1.mode = Mode.MessageTable MessageTableMode.Normal
    ∧ appW1.message_table_state = some 0
    ∧ (appW1.handle_key_events tiId keyEnter).app.mode = Mode.Message 0 := by
  refine ⟨rfl, rfl, by decide⟩

/-- C2 (amended): pressing Enter in `MessageTable` mode with row `r`
selected transitions the mode to `Message r` immediately, inside the key
handler, without waiting for the `MessageBodyLoaded` event. -/
theorem c2_enter_enters_message_mode (ti : KeyEvent → TextArea → TextArea)
    (app : App) (k : KeyEvent) (tm : MessageTableMode) (r : Nat)
    (hmode : app.mode = Mode.MessageTable tm)
    (hsel : app.message_table_state = some r)
    (hk : k.code = KeyCode.Enter) :
    (app.handle_key_events ti k).app.mode = Mode.Message r := by
  unfold App.handle_key_events
  rw [if_neg (by simp [hk])]
  simp only [hmode, hk, App.view_message, hsel]

/-- C2 witness: Enter on the state with one loaded message and row 0
selected. -/
theorem c2_enter_enters_message_mode_witness :
    (appW1.handle_key_events tiId keyEnter).app.mode = Mode.Message 0 :=
  c2_enter_enters_message_mode tiId appW1 keyEnter MessageTableMode.Normal 0 rfl rfl rfl

/-- C3 counterexample: with row 0 selected and a loaded message of id 5,
Enter requests the body of id 1 (row index + 1), not of id 5 — the requested
id does not equal `loaded_messages[0].id()`. -/
theorem c3_requested_id_counterexample :
    appW1.message_table_state = some 0
    ∧ (appW1.loaded_messages.headD Message.default).id = 5
    ∧ (appW1.handle_key_events tiId keyEnter).requests = [StoreRequest.get_message 1]
    ∧ (1 : Nat) ≠ 5 := by decide

/-- C3 (amended): handling Enter in `MessageTable` mode with row `i`
selected requests the body of id `i + 1` — which equals
`loaded_messages[i].id()` exactly when the loaded ids are the 1-based
sequence, as the seeded store produces — and clears the message-detail
textarea to its empty default before any body arrives. -/
theorem c3_enter_requests_body (ti : KeyEvent → TextArea → TextArea)
    (app : App) (k : KeyEvent) (tm : MessageTableMode) (i : Nat)
    (hmode : app.mode = Mode.MessageTable tm)
    (hsel : app.message_table_state = some i)
    (hk : k.code = KeyCode.Enter) :
    (app.handle_key_events ti k).requests = [StoreRequest.get_message (i + 1)]
    ∧ (app.handle_key_events ti k).app.message_textarea = TextArea.default
    ∧ ∀ h : i < app.loaded_messages.length,
        (∀ j, (hj : j < app.loaded_messages.length) →
          (app.loaded_messages.get ⟨j, hj⟩).id = j + 1) →
        i + 1 = (app.loaded_messages.get ⟨i, h⟩).id := by
  refine ⟨?_, ?_, ?_⟩
  · unfold App.handle_key_events
    rw [if_neg (by simp [hk])]
    simp only [hmode, hk, App.view_message, hsel]
  · unfold App.handle_key_events
    rw [if_neg (by simp [hk])]
    simp only [hmode, hk, App.view_message, hsel]
  · intro h hids
    exact (hids i h).symm

/-- C3 witness: with two loaded messages of ids 1 and 2 and row 0 selected,
Enter requests id 1 = `loaded_messages[0].id()` and resets the detail
textarea. -/
theorem c3_enter_requests_body_witness :
    (appSeq.handle_key_events tiId keyEnter).requests = [StoreRequest.get_message 1]
    ∧ (appSeq.handle_key_events tiId keyEnter).app.message_textarea = TextArea.default
    ∧ 0 + 1 = (appSeq.loaded_messages.get ⟨0, by decide⟩).id := by
  have h := c3_enter_requests_body tiId appSeq keyEnter MessageTableMode.Normal 0 rfl rfl rfl
  have hids : ∀ j, (hj : j < appSeq.loaded_messages.length) →
      (appSeq.loaded_messages.get ⟨j, hj⟩).id = j + 1 := by
    intro j hj
    have h2 : appSeq.loaded_messages.length = 2 := rfl
    rw [h2] at hj
    interval_cases j <;> rfl
  exact ⟨h.1, h.2.1, h.2.2 (by decide) hids⟩

/-- C7: on a non-empty list with a selected index `i < len`, next followed by
previous (and previous followed by next) returns the selection to `i`:
wrap-around navigation is a bijection with these two maps mutually inverse. -/
theorem c7_next_previous_roundtrip (app : App) (i : Nat)
    (hne : app.loaded_messages ≠ [])
    (hsel : app.message_table_state = some i)
    (hlt : i < app.loaded_messages.length) :
    (app.next_message.previous_message).message_table_state = some i
    ∧ (app.previous_message.next_message).message_table_state = some i := by
  have hlen : 0 < app.loaded_messages.length := List.length_pos.mpr hne
  unfold App.next_message App.previous_message
  dsimp only
  simp only [hsel]
  constructor <;>
    (simp only [Option.some.injEq]; split_ifs <;> first | contradiction | omega)

/-- C7 witness: round trip from index 0 on a two-message list. -/
theorem c7_next_previous_roundtrip_witness :
    (appSeq.next_message.previous_message).message_table_state = some 0
    ∧ (appSeq.previous_message.next_message).message_table_state = some 0 :=
  c7_next_previous_roundtrip appSeq 0 (by decide) rfl (by decide)

/-- C8 counterexample: on an empty list with a stale selection index 2,
`previous_message` yields index 1, which is outside `[0, max(N,1)-1] = [0,0]`
and is not 0. -/
theorem c8_previous_out_of_range_counterexample :
    appW3.loaded_messages = []
    ∧ appW3.message_table_state = some 2
    ∧ (appW3.previous_message).message_table_state = some 1
    ∧ ¬(1 < max appW3.loaded_messages.length 1)
    ∧ (1 : Nat) ≠ 0 := by decide

/-- C8 (amended): whenever the prior selection is `None` or an index inside
the invariant range `[0, max(N,1)-1]`, both navigation operations produce a
selection index inside `[0, max(N,1)-1]`, and on an empty list both yield
index 0.  (With a prior index beyond the list length, `previous_message` can
leave the range, as the counterexample shows; the operations are total Lean
functions, so neither panics.) -/
theorem c8_navigation_in_range (app : App)
    (hsel : app.message_table_state = none ∨
      ∃ i, app.message_table_state = some i ∧ i < max app.loaded_messages.length 1) :
    (∃ j, (app.next_message).message_table_state = some j
        ∧ j < max app.loaded_messages.length 1)
    ∧ (∃ j, (app.previous_message).message_table_state = some j
        ∧ j < max app.loaded_messages.length 1)
    ∧ (app.loaded_messages = [] →
        (app.next_message).message_table_state = some 0
        ∧ (app.previous_message).message_table_state = some 0) := by
  unfold App.next_message App.previous_message
  dsimp only
  rcases hsel with h | ⟨i, h, hlt⟩ <;> simp only [h]
  · refine ⟨⟨0, rfl, by omega⟩, ⟨0, rfl, by omega⟩, fun hE => ?_⟩
    constructor <;> trivial
  · refine ⟨⟨_, rfl, ?_⟩, ⟨_, rfl, ?_⟩, fun hE => ?_⟩
    · split_ifs <;> first | contradiction | omega
    · split_ifs <;> first | contradiction | omega
    · simp only [hE, List.length_nil] at hlt ⊢
      constructor <;>
        (simp only [Option.some.injEq]; split_ifs <;> first | contradiction | omega)

/-- C8 witness: the initial state (empty list, selection 0) keeps both
operations at index 0, inside `[0, max(0,1)-1]`. -/
theorem c8_navigation_in_range_witness :
    (∃ j, (App.default.next_message).message_table_state = some j
        ∧ j < max App.default.loaded_messages.length 1)
    ∧ (∃ j, (App.default.previous_message).message_table_state = some j
        ∧ j < max App.default.loaded_messages.length 1)
    ∧ ((App.default.next_message).message_table_state = some 0
        ∧ (App.default.previous_message).message_table_state = some 0) := by
  have h := c8_navigation_in_range App.default (Or.inr ⟨0, rfl, by decide⟩)
  exact ⟨h.1, h.2.1, h.2.2 rfl⟩

/-- C9 counterexample: the initial state is reachable, its message list is
empty, yet its selection cursor is `some 0`, not `none`. -/
theorem c9_initial_selection_counterexample :
    Reachable tiId App.default
    ∧ App.default.loaded_messages = []
    ∧ App.default.message_table_state ≠ none :=
  ⟨Reachable.init, rfl, by decide⟩

/-- C9 (amended): in every reachable controller state the selection cursor
is `some` index — never `none`, even while `loaded_messages` is empty (the
initial state already selects row 0 of the empty list), and every key and
application event preserves this.  It is not clamped to `[0, len-1]`: a
`MessagesLoaded` event that shrinks the list leaves a stale index in place. -/
theorem c9_selection_always_some (ti : KeyEvent → TextArea → TextArea)
    (a : App) (h : Reachable ti a) :
    a.message_table_state.isSome = true := by
  induction h with
  | init => rfl
  | step a i _ ih =>
    cases i with
    | key k => exact handle_key_sel ti a k ih
    | app e => exact handle_app_sel a e ih
    | tick => exact ih

/-- C9 witness: the invariant at the reachable initial state. -/
theorem c9_selection_always_some_witness :
    App.default.message_table_state.isSome = true :=
  c9_selection_always_some tiId App.default Reachable.init
